import Mathlib

/-!
Verification of the inference service in `Monitor dan Logging/7.inference.py`.

The service loads two artifacts (a Keras classifier and an sklearn scaler)
at startup, and exposes two Flask endpoints:

* `GET /health` returning `{status: "healthy", model_loaded: model is not None}`;
* `POST /predict` which checks both artifacts are present, reads
  `data["features"]` from the JSON body, builds
  `np.array(features).reshape(1, -1)`, applies `scaler.transform`,
  then `model.predict`, thresholds the probability at 0.5 and returns
  the class and the probability; any exception in that block is caught
  and returned as a 400 response carrying `str(e)`.

Numeric values are modelled as rationals: the claims under verification
concern control flow, dimension checks and the strict 0.5 threshold,
none of which depends on floating-point rounding.
-/

/-- A Python value that can appear under the `features` key of the JSON
body: a number, or an arbitrarily nested list of such values. -/
inductive PyVal where
  | num (q : ℚ) : PyVal
  | list (xs : List PyVal) : PyVal
deriving Inhabited

/-- Row-major (C-order) sequence of the leaves of a nested value; this is
what an ndarray built from the value flattens to. -/
def PyVal.flatten : PyVal → List ℚ
  | .num q => [q]
  | .list [] => []
  | .list (x :: xs) => x.flatten ++ (PyVal.list xs).flatten

/-- The ndarray shape numpy infers for a nested list, as a list of
dimensions (`some []` for a bare scalar); `none` when the nesting is
ragged, in which case `np.array` raises. -/
def shapeOf : PyVal → Option (List Nat)
  | .num _ => some []
  | .list [] => some [0]
  | .list [x] =>
      match shapeOf x with
      | none => none
      | some s => some (1 :: s)
  | .list (x :: y :: ys) =>
      match shapeOf x, shapeOf (.list (y :: ys)) with
      | some s, some (n :: s2) => if s = s2 then some ((n + 1) :: s) else none
      | _, _ => none

/-- Embedding of `np.array(v).reshape(1, -1)`: succeeds on any
well-formed (non-ragged) nested numeric value, producing the one-row
matrix of its row-major flattening; raises on ragged input. -/
def npArrayReshape1 (v : PyVal) : Except String (List (List ℚ)) :=
  match shapeOf v with
  | some _ => .ok [v.flatten]
  | none => .error "could not build an array from ragged nested sequences"

/-- Modelled from the spec: the scaler artifact is an external
previously-fitted sklearn StandardScaler (its code is not part of this
repository). Per the data model it is an opaque transform fitted on a
fixed number of features; `params` pairs each feature with its fitted
(mean, scale). -/
structure Scaler where
  params : List (ℚ × ℚ)
deriving DecidableEq, Inhabited

/-- Number of input features the scaler was fitted on. -/
def Scaler.nFeatures (s : Scaler) : Nat := s.params.length

/-- Standardize one row: elementwise (x - mean) / scale. -/
def Scaler.transformRow (s : Scaler) (row : List ℚ) : List ℚ :=
  (row.zip s.params).map (fun p => (p.1 - p.2.1) / p.2.2)

/-- Modelled from the spec: `scaler.transform` on a matrix. The spec
(section 4.3) requires any shape mismatch to surface as a processing
error, which matches sklearn raising ValueError when the column count
differs from the fitted feature count. -/
def Scaler.transform (s : Scaler) (X : List (List ℚ)) : Except String (List (List ℚ)) :=
  if X.all (fun row => row.length == s.nFeatures) then
    .ok (X.map s.transformRow)
  else
    .error "X has a wrong number of features for the fitted scaler"

/-- Modelled from the spec: the classifier artifact is an external
previously-trained Keras model (its code is not part of this
repository). Per the data model it maps a normalized feature row of its
fixed input dimensionality to a probability. -/
structure Model where
  nInputs : Nat
  f : List ℚ → ℚ

/-- Modelled from the spec: `model.predict` on a matrix, one output unit
per row; raises on an input whose width differs from the network input. -/
def Model.predict (m : Model) (X : List (List ℚ)) : Except String (List (List ℚ)) :=
  if X.all (fun row => row.length == m.nInputs) then
    .ok (X.map (fun row => [m.f row]))
  else
    .error "input shape is incompatible with the model"

/-- The process-wide state set up by the module-level loader: the
globals `model` and `scaler`, each possibly left unset. -/
structure ServerState where
  model : Option Model
  scaler : Option Scaler

/-- Outcome of attempting to load one artifact from its path. -/
inductive LoadOutcome (α : Type) where
  | missing : LoadOutcome α
  | ok (a : α) : LoadOutcome α
  | raises (msg : String) : LoadOutcome α

/-- What the filesystem and deserializers would yield for each artifact:
`missing` when the path does not exist, `ok` when loading succeeds,
`raises` when loading throws. -/
structure LoaderEnv where
  modelLoad : LoadOutcome Model
  scalerLoad : LoadOutcome Scaler

/-- Embedding of the module-level loading block: both loads sit inside a
single try/except. The model load runs first; if it raises, control
jumps to the except clause and the scaler load is never attempted. A
missing path skips the load without raising. -/
def loadArtifacts (env : LoaderEnv) : ServerState :=
  match env.modelLoad with
  | .raises _ => { model := none, scaler := none }
  | .missing =>
      match env.scalerLoad with
      | .raises _ => { model := none, scaler := none }
      | .missing => { model := none, scaler := none }
      | .ok s => { model := none, scaler := some s }
  | .ok m =>
      match env.scalerLoad with
      | .raises _ => { model := some m, scaler := none }
      | .missing => { model := some m, scaler := none }
      | .ok s => { model := some m, scaler := some s }

/-- Response of the `/health` endpoint. -/
structure HealthResp where
  status : String
  model_loaded : Bool
deriving DecidableEq

/-- The `/health` handler: always 200, with
`model_loaded = (model is not None)`. -/
def health (st : ServerState) : HealthResp :=
  { status := "healthy", model_loaded := st.model.isSome }

/-- The JSON body of a `/predict` request: either `request.get_json`
raises (malformed body) with some message, or it yields an object,
modelled as an association list from keys to values. -/
inductive ReqBody where
  | malformed (msg : String) : ReqBody
  | obj (kvs : List (String × PyVal)) : ReqBody

/-- Body of a `/predict` response: a successful prediction or an error
object. -/
inductive RespBody where
  | prediction (prediction_class : Int) (prediction_prob : ℚ) : RespBody
  | error (msg : String) : RespBody
deriving DecidableEq

/-- An HTTP response: status code plus JSON body. -/
structure Resp where
  status : Nat
  body : RespBody
deriving DecidableEq

/-- Embedding of `request.get_json(force=True)`. -/
def getJson : ReqBody → Except String (List (String × PyVal))
  | .malformed msg => .error msg
  | .obj kvs => .ok kvs

/-- Embedding of the subscript `data[k]` on a dict: KeyError carries the
repr of the missing key, which for a string key is the key in quotes. -/
def dictGet (kvs : List (String × PyVal)) (k : String) : Except String PyVal :=
  match kvs.lookup k with
  | some v => .ok v
  | none => .error ("\x27" ++ k ++ "\x27")

/-- Embedding of the subscript `l[i]` on a sequence: IndexError when out
of range. -/
def pyIndex {α : Type} (l : List α) (i : Nat) : Except String α :=
  match l.get? i with
  | some x => .ok x
  | none => .error "sequence index out of range"

/-- The body of the try block of the `/predict` handler: parse the JSON,
read `data["features"]`, reshape to one row, scale, predict, index the
probability out of the (1,1) result and threshold it strictly at 0.5.
Returns the pair (prediction_class, prediction_prob) or the message of
the first exception raised. -/
def pipeline (m : Model) (s : Scaler) (req : ReqBody) : Except String (Int × ℚ) := do
  let data ← getJson req
  let feats ← dictGet data "features"
  let input_data ← npArrayReshape1 feats
  let scaled_data ← s.transform input_data
  let prediction_prob ← m.predict scaled_data
  let row0 ← pyIndex prediction_prob 0
  let p ← pyIndex row0 0
  let prediction_class : Int := if (1 : ℚ) / 2 < p then 1 else 0
  pure (prediction_class, p)

/-- The `/predict` handler: 500 when either global is unset, otherwise
run the pipeline under try/except, mapping success to a 200 prediction
response and any exception to a 400 response carrying its message. -/
def predict (st : ServerState) (req : ReqBody) : Resp :=
  match st.model, st.scaler with
  | some m, some s =>
      match pipeline m s req with
      | .ok (c, p) => { status := 200, body := .prediction c p }
      | .error e => { status := 400, body := .error e }
  | _, _ => { status := 500, body := .error "Model or Scaler not initialized" }

/-- A request the app can receive. -/
inductive HttpRequest where
  | getHealth : HttpRequest
  | postPredict (body : ReqBody) : HttpRequest

/-- A response from either endpoint. -/
inductive HttpResp where
  | ofHealth (h : HealthResp) : HttpResp
  | ofPredict (r : Resp) : HttpResp
deriving DecidableEq

/-- One request/response step of the app, with the process-wide state
threaded explicitly: neither handler assigns to the globals, so the
state is returned unchanged. -/
def handle (st : ServerState) : HttpRequest → HttpResp × ServerState
  | .getHealth => (.ofHealth (health st), st)
  | .postPredict b => (.ofPredict (predict st b), st)

/-- A flat numeric JSON array, as sent in the documented payload. -/
def flatOf (l : List ℚ) : PyVal := .list (l.map PyVal.num)

/-! ### Evaluation lemmas -/

lemma flatten_flatOf (l : List ℚ) : (flatOf l).flatten = l := by
  induction l with
  | nil => simp [flatOf, PyVal.flatten]
  | cons x xs ih => simp [flatOf, PyVal.flatten] at ih ⊢; simp [ih]

lemma shapeOf_flatOf (l : List ℚ) : shapeOf (flatOf l) = some [l.length] := by
  induction l with
  | nil => simp [flatOf, shapeOf]
  | cons x xs ih =>
      cases xs with
      | nil => simp [flatOf, shapeOf]
      | cons y ys =>
          simp only [flatOf, List.map] at ih ⊢
          rw [shapeOf, ih]
          simp [shapeOf]

lemma npArrayReshape1_flatOf (l : List ℚ) : npArrayReshape1 (flatOf l) = .ok [l] := by
  simp [npArrayReshape1, shapeOf_flatOf, flatten_flatOf]

lemma npArrayReshape1_ok (v : PyVal) (sh : List Nat) (h : shapeOf v = some sh) :
    npArrayReshape1 v = .ok [v.flatten] := by
  simp [npArrayReshape1, h]

lemma Scaler.transformRow_length (s : Scaler) (row : List ℚ) (h : row.length = s.nFeatures) :
    (s.transformRow row).length = s.nFeatures := by
  simp [Scaler.transformRow, Scaler.nFeatures] at h ⊢
  omega

lemma Scaler.transform_single (s : Scaler) (row : List ℚ) (h : row.length = s.nFeatures) :
    s.transform [row] = .ok [s.transformRow row] := by
  simp [Scaler.transform, h]

lemma Scaler.transform_single_err (s : Scaler) (row : List ℚ) (h : row.length ≠ s.nFeatures) :
    s.transform [row] = .error "X has a wrong number of features for the fitted scaler" := by
  simp [Scaler.transform, h]

lemma Model.predict_single (m : Model) (row : List ℚ) (h : row.length = m.nInputs) :
    m.predict [row] = .ok [[m.f row]] := by
  simp [Model.predict, h]

/-- Evaluation of the try-block on an object payload whose features value
reshapes to a single row of the fitted width: the result is the scaled,
predicted and thresholded pair. -/
lemma pipeline_ok (m : Model) (s : Scaler) (kvs : List (String × PyVal)) (v : PyVal)
    (hlook : kvs.lookup "features" = some v)
    (hsh : ∃ sh, shapeOf v = some sh)
    (hdim : v.flatten.length = s.nFeatures)
    (hio : m.nInputs = s.nFeatures) :
    pipeline m s (.obj kvs) =
      .ok (if (1 : ℚ) / 2 < m.f (s.transformRow v.flatten) then 1 else 0,
           m.f (s.transformRow v.flatten)) := by
  obtain ⟨sh, hsh⟩ := hsh
  have h2 : (s.transformRow v.flatten).length = m.nInputs := by
    rw [Scaler.transformRow_length s _ hdim, hio]
  simp [pipeline, getJson, dictGet, hlook, npArrayReshape1_ok v sh hsh,
    Scaler.transform_single s _ hdim, Model.predict_single m _ h2, pyIndex,
    Bind.bind, Except.bind, Pure.pure, Except.pure]

/-- Evaluation of the try-block when the features row has the wrong
width: the scaler raises and the pipeline stops with its message. -/
lemma pipeline_dim_err (m : Model) (s : Scaler) (kvs : List (String × PyVal)) (v : PyVal)
    (hlook : kvs.lookup "features" = some v)
    (hsh : ∃ sh, shapeOf v = some sh)
    (hdim : v.flatten.length ≠ s.nFeatures) :
    pipeline m s (.obj kvs) =
      .error "X has a wrong number of features for the fitted scaler" := by
  obtain ⟨sh, hsh⟩ := hsh
  simp [pipeline, getJson, dictGet, hlook, npArrayReshape1_ok v sh hsh,
    Scaler.transform_single_err s _ hdim, Bind.bind, Except.bind]

/-- Evaluation of the try-block when the features key is absent: the
KeyError message is the quoted key. -/
lemma pipeline_keyerror (m : Model) (s : Scaler) (kvs : List (String × PyVal))
    (hlook : kvs.lookup "features" = none) :
    pipeline m s (.obj kvs) = .error "\x27features\x27" := by
  simp [pipeline, getJson, dictGet, hlook, Bind.bind, Except.bind]

/-- The handler maps any pipeline exception to a 400 error response. -/
lemma predict_of_pipeline_error (m : Model) (s : Scaler) (req : ReqBody) (e : String)
    (h : pipeline m s req = .error e) :
    predict { model := some m, scaler := some s } req = { status := 400, body := .error e } := by
  simp [predict, h]

/-- The handler maps a pipeline success to a 200 prediction response. -/
lemma predict_of_pipeline_ok (m : Model) (s : Scaler) (req : ReqBody) (c : Int) (p : ℚ)
    (h : pipeline m s req = .ok (c, p)) :
    predict { model := some m, scaler := some s } req = { status := 200, body := .prediction c p } := by
  simp [predict, h]

/-! ### Claims -/

/-- C1 (counterexample): there is a degraded startup — the classifier
loads successfully while the scaler file is missing — after which
`/health` still reports `model_loaded = true`, so the flag is not false
in every degraded-startup scenario and does not require both artifacts. -/
theorem C1_health_counterexample :
    (health (loadArtifacts
        { modelLoad := .ok { nInputs := 24, f := fun _ => 1 / 2 },
          scalerLoad := .missing })).model_loaded = true
    ∧ (loadArtifacts
        { modelLoad := .ok { nInputs := 24, f := fun _ => 1 / 2 },
          scalerLoad := .missing }).scaler = none := by
  exact ⟨rfl, rfl⟩

/-- C1 (amended): for every loader outcome, `/health` reports
`model_loaded = true` exactly when the classifier was loaded
successfully; the scaler state does not enter the flag, so degraded
startups in which only the scaler is missing or failed still report
`true`. -/
theorem C1_health_reflects_model_only (env : LoaderEnv) :
    (health (loadArtifacts env)).model_loaded = true
      ↔ ∃ m, env.modelLoad = LoadOutcome.ok m := by
  obtain ⟨ml, sl⟩ := env
  cases ml <;> cases sl <;> simp [health, loadArtifacts]

/-- C2 (counterexample): when loading the classifier raises (a
non-missing-file failure) while the scaler is present and loadable, the
single try/except block aborts before the scaler load, so the scaler is
left unset — refuting the claim that a classifier-load failure does not
prevent the scaler from being loaded. -/
theorem C2_loader_counterexample :
    (loadArtifacts
        { modelLoad := .raises "corrupt file",
          scalerLoad := .ok { params := [(0, 1)] } }).scaler = none
    ∧ (loadArtifacts
        { modelLoad := .raises "corrupt file",
          scalerLoad := .ok { params := [(0, 1)] } }).model = none := by
  exact ⟨rfl, rfl⟩

/-- C2 (amended): if loading the classifier throws, the error is
reported and the whole loading block aborts, leaving both artifacts
unset even when the scaler path would load; only a failure in the
scaler load (which runs second) leaves just that artifact unset while
the already-loaded classifier is kept. -/
theorem C2_loader_abort_on_raise (env : LoaderEnv) (msg : String) :
    (env.modelLoad = LoadOutcome.raises msg →
      (loadArtifacts env).model = none ∧ (loadArtifacts env).scaler = none)
    ∧ (∀ m, env.modelLoad = LoadOutcome.ok m →
        env.scalerLoad = LoadOutcome.raises msg →
        (loadArtifacts env).model = some m ∧ (loadArtifacts env).scaler = none) := by
  obtain ⟨ml, sl⟩ := env
  constructor
  · rintro h
    cases ml <;> simp_all [loadArtifacts]
  · rintro m h1 h2
    cases ml <;> cases sl <;> simp_all [loadArtifacts]

theorem C2_loader_abort_on_raise_witness :
    (loadArtifacts
        { modelLoad := .raises "corrupt file",
          scalerLoad := .ok { params := [(0, 1)] } }).model = none
    ∧ (loadArtifacts
        { modelLoad := .raises "corrupt file",
          scalerLoad := .ok { params := [(0, 1)] } }).scaler = none :=
  (C2_loader_abort_on_raise
    { modelLoad := .raises "corrupt file",
      scalerLoad := .ok { params := [(0, 1)] } } "corrupt file").1 rfl

lemma threshold_class_cases (p : ℚ) :
    ((if (1 : ℚ) / 2 < p then (1 : ℤ) else 0) = 0
        ∨ (if (1 : ℚ) / 2 < p then (1 : ℤ) else 0) = 1)
    ∧ ((if (1 : ℚ) / 2 < p then (1 : ℤ) else 0) = 1 ↔ (1 : ℚ) / 2 < p)
    ∧ (p = 1 / 2 → (if (1 : ℚ) / 2 < p then (1 : ℤ) else 0) = 0) := by
  by_cases h : (1 : ℚ) / 2 < p
  · refine ⟨Or.inr (if_pos h), ⟨fun _ => h, fun _ => if_pos h⟩, fun hp => ?_⟩
    rw [hp] at h
    exact absurd h (by norm_num)
  · exact ⟨Or.inl (if_neg h),
      ⟨fun hc => absurd ((if_neg h).symm.trans hc) (by norm_num), fun hlt => absurd hlt h⟩,
      fun _ => if_neg h⟩

/-- C3: for every feature vector of the expected dimensionality
(classifier output assumed to be a probability, as the data model
states), `predict` answers 200 with a probability p in [0,1] and a
class c in {0,1}, with c = 1 exactly when p > 1/2; in particular
p = 1/2 yields class 0. -/
theorem C3_threshold_strict (m : Model) (s : Scaler) (feats : List ℚ)
    (hdim : feats.length = s.nFeatures)
    (hio : m.nInputs = s.nFeatures)
    (hprob : ∀ r, 0 ≤ m.f r ∧ m.f r ≤ 1) :
    ∃ c p, predict { model := some m, scaler := some s }
        (.obj [("features", flatOf feats)]) = { status := 200, body := .prediction c p }
      ∧ 0 ≤ p ∧ p ≤ 1
      ∧ (c = 0 ∨ c = 1)
      ∧ (c = 1 ↔ (1 : ℚ) / 2 < p)
      ∧ (p = 1 / 2 → c = 0) := by
  have hl : [("features", flatOf feats)].lookup "features" = some (flatOf feats) := by
    simp [List.lookup]
  have hflat : (flatOf feats).flatten = feats := flatten_flatOf feats
  have hdim2 : (flatOf feats).flatten.length = s.nFeatures := by rw [hflat]; exact hdim
  have hpipe := pipeline_ok m s _ (flatOf feats) hl ⟨_, shapeOf_flatOf feats⟩ hdim2 hio
  rw [hflat] at hpipe
  obtain ⟨h1, h2, h3⟩ := threshold_class_cases (m.f (s.transformRow feats))
  exact ⟨_, _, predict_of_pipeline_ok m s _ _ _ hpipe, (hprob _).1, (hprob _).2, h1, h2, h3⟩

theorem C3_threshold_strict_witness :
    ∃ c p, predict
        { model := some { nInputs := 2, f := fun _ => 1 / 2 },
          scaler := some { params := [(0, 1), (0, 1)] } }
        (.obj [("features", flatOf [3, 4])]) = { status := 200, body := .prediction c p }
      ∧ 0 ≤ p ∧ p ≤ 1
      ∧ (c = 0 ∨ c = 1)
      ∧ (c = 1 ↔ (1 : ℚ) / 2 < p)
      ∧ (p = 1 / 2 → c = 0) :=
  C3_threshold_strict { nInputs := 2, f := fun _ => 1 / 2 } { params := [(0, 1), (0, 1)] }
    [3, 4] (by simp [Scaler.nFeatures]) (by simp [Scaler.nFeatures])
    (fun r => by norm_num)

/-- C4: whenever the classifier or the scaler is unset, `/predict`
answers the 500 service-unavailable error with the fixed message, for
every payload (malformed or any object), with no parsing or computation
reflected in the response. -/
theorem C4_unavailable_before_parsing (st : ServerState) (req : ReqBody)
    (h : st.model = none ∨ st.scaler = none) :
    predict st req = { status := 500, body := .error "Model or Scaler not initialized" } := by
  obtain ⟨mo, sc⟩ := st
  cases mo <;> cases sc <;> simp_all [predict]

theorem C4_unavailable_before_parsing_witness :
    predict { model := none, scaler := none } (.malformed "no json")
      = { status := 500, body := .error "Model or Scaler not initialized" } :=
  C4_unavailable_before_parsing { model := none, scaler := none }
    (.malformed "no json") (Or.inl rfl)

/-- C5: a flat features array whose length differs from the fitted
feature count (the empty array included) makes the scaler raise inside
the try block, and `/predict` answers 400 with that processing-error
message — not a crash and not a 200 response. -/
theorem C5_wrong_length_is_400 (m : Model) (s : Scaler) (feats : List ℚ)
    (hdim : feats.length ≠ s.nFeatures) :
    predict { model := some m, scaler := some s }
        (.obj [("features", flatOf feats)])
      = { status := 400,
          body := .error "X has a wrong number of features for the fitted scaler" } := by
  have hl : [("features", flatOf feats)].lookup "features" = some (flatOf feats) := by
    simp [List.lookup]
  have hdim2 : (flatOf feats).flatten.length ≠ s.nFeatures := by
    rw [flatten_flatOf]; exact hdim
  exact predict_of_pipeline_error m s _ _
    (pipeline_dim_err m s _ (flatOf feats) hl ⟨_, shapeOf_flatOf feats⟩ hdim2)

theorem C5_wrong_length_is_400_witness :
    predict
        { model := some { nInputs := 1, f := fun _ => 0 },
          scaler := some { params := [(0, 1)] } }
        (.obj [("features", flatOf [])])
      = { status := 400,
          body := .error "X has a wrong number of features for the fitted scaler" } :=
  C5_wrong_length_is_400 { nInputs := 1, f := fun _ => 0 } { params := [(0, 1)] } []
    (by simp [Scaler.nFeatures])

/-- C6: every exception raised inside the try block — parsing,
key lookup, array building, scaling, predicting or indexing — is caught
and becomes a 400 response carrying exactly that exception message; the
handler is a total function, so the process never crashes. -/
theorem C6_exceptions_become_400 (m : Model) (s : Scaler) (req : ReqBody) (e : String)
    (h : pipeline m s req = .error e) :
    predict { model := some m, scaler := some s } req
      = { status := 400, body := .error e } := by
  simp [predict, h]

theorem C6_exceptions_become_400_witness :
    predict
        { model := some { nInputs := 1, f := fun _ => 0 },
          scaler := some { params := [(0, 1)] } }
        (.malformed "Failed to decode JSON object")
      = { status := 400, body := .error "Failed to decode JSON object" } :=
  C6_exceptions_become_400 { nInputs := 1, f := fun _ => 0 } { params := [(0, 1)] }
    (.malformed "Failed to decode JSON object") "Failed to decode JSON object" rfl

/-- C7: a flat numeric features sequence of length N equal to the fitted
width is reshaped to the one-row matrix [feats], and the response is
built from the classifier applied to the scaler output of that single
row — scaling first, prediction second. -/
theorem C7_reshape_scale_then_predict (m : Model) (s : Scaler) (feats : List ℚ)
    (hdim : feats.length = s.nFeatures)
    (hio : m.nInputs = s.nFeatures) :
    npArrayReshape1 (flatOf feats) = .ok [feats]
    ∧ predict { model := some m, scaler := some s }
        (.obj [("features", flatOf feats)])
      = { status := 200,
          body := .prediction
            (if (1 : ℚ) / 2 < m.f (s.transformRow feats) then 1 else 0)
            (m.f (s.transformRow feats)) } := by
  have hl : [("features", flatOf feats)].lookup "features" = some (flatOf feats) := by
    simp [List.lookup]
  have hflat : (flatOf feats).flatten = feats := flatten_flatOf feats
  have hdim2 : (flatOf feats).flatten.length = s.nFeatures := by rw [hflat]; exact hdim
  have hpipe := pipeline_ok m s _ (flatOf feats) hl ⟨_, shapeOf_flatOf feats⟩ hdim2 hio
  rw [hflat] at hpipe
  exact ⟨npArrayReshape1_flatOf feats, predict_of_pipeline_ok m s _ _ _ hpipe⟩

theorem C7_reshape_scale_then_predict_witness :
    npArrayReshape1 (flatOf [3, 4]) = .ok [[3, 4]]
    ∧ predict
        { model := some { nInputs := 2, f := fun r => r.headD 0 },
          scaler := some { params := [(0, 1), (0, 1)] } }
        (.obj [("features", flatOf [3, 4])])
      = { status := 200,
          body := .prediction
            (if (1 : ℚ) / 2
                < Model.f { nInputs := 2, f := fun r => r.headD 0 }
                    (Scaler.transformRow { params := [(0, 1), (0, 1)] } [3, 4])
              then 1 else 0)
            (Model.f { nInputs := 2, f := fun r => r.headD 0 }
              (Scaler.transformRow { params := [(0, 1), (0, 1)] } [3, 4])) } :=
  C7_reshape_scale_then_predict { nInputs := 2, f := fun r => r.headD 0 }
    { params := [(0, 1), (0, 1)] } [3, 4]
    (by simp [Scaler.nFeatures]) (by simp [Scaler.nFeatures])

/-- C8: a `/predict` call never mutates the process-wide state, and two
successive calls with the same body therefore produce the same
response. -/
theorem C8_predict_pure (st : ServerState) (b : ReqBody) :
    (handle st (.postPredict b)).2 = st
    ∧ (handle (handle st (.postPredict b)).2 (.postPredict b)).1
        = (handle st (.postPredict b)).1 := by
  exact ⟨rfl, rfl⟩

/-- C9: with both artifacts loaded, an object body without the
`features` key makes the dict subscript raise KeyError, and the handler
answers 400 carrying that exception message (the quoted key), not a 500
and not a crash. -/
theorem C9_missing_features_key (m : Model) (s : Scaler) (kvs : List (String × PyVal))
    (h : kvs.lookup "features" = none) :
    predict { model := some m, scaler := some s } (.obj kvs)
      = { status := 400, body := .error "\x27features\x27" } :=
  predict_of_pipeline_error m s _ _ (pipeline_keyerror m s kvs h)

theorem C9_missing_features_key_witness :
    predict
        { model := some { nInputs := 1, f := fun _ => 0 },
          scaler := some { params := [(0, 1)] } }
        (.obj [("data", PyVal.num 1)])
      = { status := 400, body := .error "\x27features\x27" } :=
  C9_missing_features_key { nInputs := 1, f := fun _ => 0 } { params := [(0, 1)] }
    [("data", PyVal.num 1)] (by simp [List.lookup])

/-- C10: a well-formed (non-ragged) nested features value with leaves
l is flattened row-major by reshape(1, -1) into the one-row matrix [l],
and the handler treats it exactly as the flat sequence l. -/
theorem C10_nested_features_flattened (m : Model) (s : Scaler) (v : PyVal) (sh : List Nat)
    (h : shapeOf v = some sh) :
    npArrayReshape1 v = .ok [v.flatten]
    ∧ predict { model := some m, scaler := some s } (.obj [("features", v)])
      = predict { model := some m, scaler := some s }
          (.obj [("features", flatOf v.flatten)]) := by
  refine ⟨npArrayReshape1_ok v sh h, ?_⟩
  have hv : [("features", v)].lookup "features" = some v := by simp [List.lookup]
  have hfl : [("features", flatOf v.flatten)].lookup "features"
      = some (flatOf v.flatten) := by simp [List.lookup]
  have heq : pipeline m s (.obj [("features", v)])
      = pipeline m s (.obj [("features", flatOf v.flatten)]) := by
    simp [pipeline, getJson, dictGet, hv, hfl, npArrayReshape1_ok v sh h,
      npArrayReshape1_flatOf, flatten_flatOf, Bind.bind, Except.bind]
  simp [predict, heq]

theorem C10_nested_features_flattened_witness :
    npArrayReshape1 (PyVal.list [PyVal.list [PyVal.num 1, PyVal.num 2],
        PyVal.list [PyVal.num 3, PyVal.num 4]]) = .ok [[1, 2, 3, 4]]
    ∧ predict
        { model := some { nInputs := 4, f := fun r => r.headD 0 },
          scaler := some { params := [(0, 1), (0, 1), (0, 1), (0, 1)] } }
        (.obj [("features", PyVal.list [PyVal.list [PyVal.num 1, PyVal.num 2],
            PyVal.list [PyVal.num 3, PyVal.num 4]])])
      = predict
          { model := some { nInputs := 4, f := fun r => r.headD 0 },
            scaler := some { params := [(0, 1), (0, 1), (0, 1), (0, 1)] } }
          (.obj [("features",
              flatOf (PyVal.list [PyVal.list [PyVal.num 1, PyVal.num 2],
                  PyVal.list [PyVal.num 3, PyVal.num 4]]).flatten)]) := by
  have h : shapeOf (PyVal.list [PyVal.list [PyVal.num 1, PyVal.num 2],
      PyVal.list [PyVal.num 3, PyVal.num 4]]) = some [2, 2] := by
    simp [shapeOf]
  have hfl : (PyVal.list [PyVal.list [PyVal.num 1, PyVal.num 2],
      PyVal.list [PyVal.num 3, PyVal.num 4]]).flatten = [1, 2, 3, 4] := by
    simp [PyVal.flatten]
  have := C10_nested_features_flattened
    { nInputs := 4, f := fun r => r.headD 0 }
    { params := [(0, 1), (0, 1), (0, 1), (0, 1)] }
    (PyVal.list [PyVal.list [PyVal.num 1, PyVal.num 2],
        PyVal.list [PyVal.num 3, PyVal.num 4]]) [2, 2] h
  rw [hfl] at this
  exact ⟨this.1, by rw [hfl]; exact this.2⟩
